import Mathlib

/-!
Verification of the MoraCollect corpus web client (moracollect-corpus).

This file gives a shallow embedding of the contribution-consistency logic of
the web client (src/web/src/records.ts, src/web/src/leaderboard.ts — the
latter contains the main application module with `runRegisterForDraft`,
`handleDeleteMyRecord`, `applyLocalPromptStatsDelta`,
`applyLocalScriptStatsDelta`, `getUploadTargetFromMimeType`) together with a
spec-modelled leaderboard projector (the server endpoint is not part of the
web sources), and proves the specified functional-correctness, invariant and
error-handling properties about it.

Modelling conventions: JavaScript numbers that the code uses as integral
counters become `Int` (the code clamps with `Math.max(0, _)`, embedded as
`max 0 _`); `async` calls whose outcome the surrounding handler inspects are
passed in as explicit `Except` results; thrown exceptions become `.error`;
DOM rendering is reduced to the status strings the handlers write.
-/

namespace MoraCollect

/-! ## JavaScript string primitives -/

/-- Contiguous-sublist test on character lists, the semantics of
JavaScript `String.prototype.includes`. -/
def charSeqContains (needle : List Char) : List Char → Bool
  | [] => needle.isEmpty
  | c :: rest => needle.isPrefixOf (c :: rest) || charSeqContains needle rest

/-- JavaScript `s.includes(sub)`: contiguous substring test. -/
def includes (s sub : String) : Bool :=
  charSeqContains sub.toList s.toList

/-- JavaScript `s.toLowerCase()` (character-wise case mapping). -/
def jsToLowerCase (s : String) : String :=
  String.mk (s.toList.map Char.toLower)

/-- JavaScript `s.slice(0, n)`: the first `n` characters. -/
def jsSliceTo (s : String) (n : Nat) : String :=
  String.mk (s.toList.take n)

/-- JavaScript `s.trim()`: strip leading and trailing whitespace. -/
def jsTrim (s : String) : String :=
  String.mk
    (((s.toList.dropWhile Char.isWhitespace).reverse.dropWhile
        Char.isWhitespace).reverse)

/-! ## HTTP layer (the `fetch` responses the client inspects)

`Response.ok` in the Fetch standard is `200 <= status < 300`; the JSON body
is reduced to the fields the client reads: an optional string `detail` (what
`parseError` extracts) and, for signed-URL downloads, the raw body text and
the blob payload. -/

structure HttpResponse where
  status : Nat
  detail : Option String
  bodyText : String
  blobData : String
deriving DecidableEq, Repr

def HttpResponse.ok (response : HttpResponse) : Bool :=
  decide (200 ≤ response.status ∧ response.status < 300)

/-- Embedding of `parseError` from src/web/src/records.ts: the thrown message is the JSON
body's string `detail` when present, else the fallback with the status. -/
def parseError (response : HttpResponse) : String :=
  match response.detail with
  | some d => d
  | none => "HTTP " ++ toString response.status

/-! ## records.ts API wrappers -/

structure RegisterRecordResponse where
  ok : Bool
  record_id : String
  status : String
  already_registered : Bool
deriving DecidableEq, Repr

structure DeleteMyRecordResponse where
  ok : Bool
  record_id : String
  deleted : Bool
deriving DecidableEq, Repr

/-- Embedding of `registerRecord` from src/web/src/records.ts: throws `parseError` on a
non-ok response, otherwise returns the decoded body. -/
def registerRecord (response : HttpResponse) (body : RegisterRecordResponse) :
    Except String RegisterRecordResponse :=
  if !response.ok then Except.error (parseError response) else Except.ok body

/-- Embedding of `deleteMyRecord` from src/web/src/records.ts: throws `parseError` on any
non-ok response (404 NotFound included), otherwise returns the decoded body. -/
def deleteMyRecord (response : HttpResponse) (body : DeleteMyRecordResponse) :
    Except String DeleteMyRecordResponse :=
  if !response.ok then Except.error (parseError response) else Except.ok body

/-! ## Signed-URL playback download with one automatic retry -/

structure SignedUrlFetchError where
  message : String
  retryableExpired : Bool
deriving DecidableEq, Repr

/-- Embedding of `isRetryableSignedUrlError` from src/web/src/records.ts (on an error that
is already a `SignedUrlFetchError`, the property test reduces to the flag). -/
def isRetryableSignedUrlError (error : SignedUrlFetchError) : Bool :=
  error.retryableExpired

abbrev Blob := String

/-- Embedding of `fetchBlobFromSignedPlaybackUrl` from src/web/src/records.ts, as a
function of the HTTP response of the signed-URL GET. -/
def fetchBlobFromSignedPlaybackUrl (response : HttpResponse) :
    Except SignedUrlFetchError Blob :=
  if !response.ok then
    let bodyText := jsTrim (jsSliceTo response.bodyText 400)
    let lowerBody := jsToLowerCase bodyText
    let retryableExpired :=
      (response.status == 401 || response.status == 403) &&
        (includes lowerBody "expired" ||
          includes lowerBody "request has expired" ||
          includes lowerBody "signature")
    let suffix := if bodyText ≠ "" then " (" ++ bodyText ++ ")" else ""
    Except.error
      { message := "Failed to load audio: HTTP " ++ toString response.status ++ suffix
        retryableExpired := retryableExpired }
  else Except.ok response.blobData

/-- Embedding of `fetchRecordPlaybackBlobWithAutoRetry` from src/web/src/records.ts, as a
function of the responses of the first and (when reached) second signed-URL
downloads: the first error is re-thrown unless it is a retryable
expired-signature error, in which case exactly one further download is made. -/
def fetchRecordPlaybackBlobWithAutoRetry
    (firstDownload secondDownload : HttpResponse) :
    Except SignedUrlFetchError Blob :=
  match fetchBlobFromSignedPlaybackUrl firstDownload with
  | Except.ok blob => Except.ok blob
  | Except.error error =>
      if !isRetryableSignedUrlError error then Except.error error
      else fetchBlobFromSignedPlaybackUrl secondDownload

/-- Number of signed-URL downloads `fetchRecordPlaybackBlobWithAutoRetry`
performs, as determined by the first response. -/
def autoRetryDownloadCount (firstDownload : HttpResponse) : Nat :=
  match fetchBlobFromSignedPlaybackUrl firstDownload with
  | Except.ok _ => 1
  | Except.error error => if isRetryableSignedUrlError error then 2 else 1

/-! ## Data model (records.ts and prompts.ts payload types) -/

structure MyRecordItem where
  record_id : String
  status : String
  script_id : String
  prompt_id : String
  prompt_text : Option String
  raw_path : String
  mime_type : Option String
  size_bytes : Option Int
  duration_ms : Option Int
  created_at : Option String
deriving DecidableEq, Repr

structure PromptItem where
  prompt_id : String
  text : String
  order : Int
  is_active : Bool
  total_records : Int
  unique_speakers : Int
deriving DecidableEq, Repr

structure ScriptItem where
  script_id : String
  title : String
  description : String
  order : Int
  is_active : Bool
  prompt_count : Int
  total_records : Int
  unique_speakers : Int
deriving DecidableEq, Repr

structure RegisterDraft where
  recordId : String
  rawPath : String
  scriptId : String
  promptId : String
  mimeType : Option String
  sizeBytes : Option Int
  durationMs : Option Int
deriving DecidableEq, Repr

/-! ## Client application state (the module-level variables the claims touch)

The rendering-only state (canvas, buttons, cursors) is omitted; the status
strings `registerStatusEl.textContent` and `myRecordsStatusEl.textContent`
are kept because the error-handling claims observe them. -/

structure ClientState where
  myRecordsItems : List MyRecordItem
  availablePrompts : List PromptItem
  availableScripts : List ScriptItem
  uploadCompletedForCurrentRecording : Bool
  registerStatus : String
  myRecordsStatus : String
deriving DecidableEq, Repr

/-- Embedding of `applyLocalPromptStatsDelta` from the main client module: adds the deltas
to the matching prompt's counters, clamping each at 0 with `Math.max`. -/
def applyLocalPromptStatsDelta (availablePrompts : List PromptItem)
    (promptId : String) (totalDelta uniqueDelta : Int) : List PromptItem :=
  availablePrompts.map fun item =>
    if item.prompt_id != promptId then item
    else
      { item with
        total_records := max 0 (item.total_records + totalDelta)
        unique_speakers := max 0 (item.unique_speakers + uniqueDelta) }

/-- Embedding of `applyLocalScriptStatsDelta` from the main client module. -/
def applyLocalScriptStatsDelta (availableScripts : List ScriptItem)
    (scriptId : String) (totalDelta uniqueDelta : Int) : List ScriptItem :=
  availableScripts.map fun item =>
    if item.script_id != scriptId then item
    else
      { item with
        total_records := max 0 (item.total_records + totalDelta)
        unique_speakers := max 0 (item.unique_speakers + uniqueDelta) }

/-- Embedding of `runRegisterForDraft` from the main client module, as a function of the
`registerRecord` outcome. On success with `already_registered = false` it
applies a `(+1, +1 or 0)` stats delta to the draft's prompt and script, the
unique part gated on whether `myRecordsItems` already held a record with the
same prompt (resp. script) id before the call; with
`already_registered = true` it applies no delta. On a thrown error it clears
`uploadCompletedForCurrentRecording` and records the failure status. -/
def runRegisterForDraft (s : ClientState) (draft : RegisterDraft)
    (result : Except String RegisterRecordResponse) : ClientState :=
  let hadPromptRecordBefore :=
    s.myRecordsItems.any fun item => item.prompt_id == draft.promptId
  let hadScriptRecordBefore :=
    s.myRecordsItems.any fun item => item.script_id == draft.scriptId
  match result with
  | Except.ok response =>
      let s1 :=
        if !response.already_registered then
          { s with
            availablePrompts :=
              applyLocalPromptStatsDelta s.availablePrompts draft.promptId 1
                (if hadPromptRecordBefore then 0 else 1)
            availableScripts :=
              applyLocalScriptStatsDelta s.availableScripts draft.scriptId 1
                (if hadScriptRecordBefore then 0 else 1) }
        else s
      { s1 with
        registerStatus :=
          if response.already_registered then "Register status: already registered"
          else "Register status: registered" }
  | Except.error msg =>
      { s with
        uploadCompletedForCurrentRecording := false
        registerStatus := "Register status: failed (" ++ msg ++ ")" }

/-- Embedding of `handleDeleteMyRecord` from the main client module (the confirmed path:
signed-in user, not already deleting, dialog accepted), as a function of the
`deleteMyRecord` outcome. On success it re-derives, by a live lookup over the
remaining `myRecordsItems`, whether another record with the same prompt
(resp. script) id remains, and applies a `(-1, 0 or -1)` delta accordingly;
a thrown error only records the failure status. -/
def handleDeleteMyRecord (s : ClientState) (recordId : String)
    (result : Except String DeleteMyRecordResponse) : ClientState :=
  let s0 := { s with myRecordsStatus := "My records: deleting ..." }
  let targetItem :=
    s.myRecordsItems.find? fun item => item.record_id == recordId
  match result with
  | Except.ok _ =>
      match targetItem with
      | some target =>
          let hasOtherPromptRecords :=
            s.myRecordsItems.any fun item =>
              item.record_id != recordId && item.prompt_id == target.prompt_id
          let hasOtherScriptRecords :=
            s.myRecordsItems.any fun item =>
              item.record_id != recordId && item.script_id == target.script_id
          { s0 with
            availablePrompts :=
              applyLocalPromptStatsDelta s.availablePrompts target.prompt_id (-1)
                (if hasOtherPromptRecords then 0 else -1)
            availableScripts :=
              applyLocalScriptStatsDelta s.availableScripts target.script_id (-1)
                (if hasOtherScriptRecords then 0 else -1) }
      | none => s0
  | Except.error msg =>
      { s0 with
        myRecordsStatus := "My records: delete failed (" ++ msg ++ ")" }

/-! ## Upload target selection -/

structure UploadTarget where
  ext : String
  contentType : String
deriving DecidableEq, Repr

/-- Embedding of `getUploadTargetFromMimeType` from the main client module: lowercases the
mime type, picks webm when it contains "webm", else mp4 when it contains
"mp4", else throws. -/
def getUploadTargetFromMimeType (mimeType : String) :
    Except String UploadTarget :=
  let normalized := jsToLowerCase mimeType
  if includes normalized "webm" then
    Except.ok { ext := "webm", contentType := "audio/webm" }
  else if includes normalized "mp4" then
    Except.ok { ext := "mp4", contentType := "audio/mp4" }
  else Except.error ("Unsupported recording format: " ++ mimeType)

/-! ## Session step semantics

The register/delete handlers above only mutate the aggregate mirrors; the
record list itself is refreshed from the server by `loadMyRecords` right
after each handler. The step functions below compose the handler (from the
source) with that refresh. -/

/-- The record the server creates for a draft on first-time registration
(status "uploaded"), as it reappears in the next `loadMyRecords` response. -/
def newRecordFromDraft (draft : RegisterDraft) : MyRecordItem :=
  { record_id := draft.recordId
    status := "uploaded"
    script_id := draft.scriptId
    prompt_id := draft.promptId
    prompt_text := none
    raw_path := draft.rawPath
    mime_type := draft.mimeType
    size_bytes := draft.sizeBytes
    duration_ms := draft.durationMs
    created_at := none }

/-- Modelled from the spec: the Registration Service ledger effect combined
with the client's `loadMyRecords` refresh — the server source is not under
the web sources, and §4.1 of the design specifies that a first-time success
creates the Submission/MirrorEntry while an `already_registered = true`
retry creates nothing — so a successful non-duplicate registration makes
the draft's record appear in the refreshed `myRecordsItems`, and a duplicate
retry leaves the list as it was. -/
def registerStep (s : ClientState) (draft : RegisterDraft)
    (response : RegisterRecordResponse) : ClientState :=
  let s2 := runRegisterForDraft s draft (Except.ok response)
  if !response.already_registered then
    { s2 with myRecordsItems := s2.myRecordsItems ++ [newRecordFromDraft draft] }
  else s2

/-- Modelled from the spec: the Deletion Service ledger effect combined with
the client's `loadMyRecords` refresh — §4.2 of the design specifies that a
successful deletion hard-deletes the Submission/MirrorEntry with that id, so
the refreshed `myRecordsItems` no longer contains it; a failed deletion
removes nothing. -/
def deleteStep (s : ClientState) (recordId : String)
    (result : Except String DeleteMyRecordResponse) : ClientState :=
  let s2 := handleDeleteMyRecord s recordId result
  match result with
  | Except.ok _ =>
      { s2 with
        myRecordsItems :=
          s2.myRecordsItems.filter fun item => item.record_id != recordId }
  | Except.error _ => s2

/-- One client-session operation: a registration attempt (whose server
outcome is the given response or thrown error) or a deletion attempt. -/
inductive ClientOp where
  | registerOk (draft : RegisterDraft) (response : RegisterRecordResponse)
  | registerErr (draft : RegisterDraft) (msg : String)
  | deleteRec (recordId : String) (result : Except String DeleteMyRecordResponse)
deriving Repr

def applyOp (s : ClientState) : ClientOp → ClientState
  | ClientOp.registerOk draft response => registerStep s draft response
  | ClientOp.registerErr draft msg =>
      runRegisterForDraft s draft (Except.error msg)
  | ClientOp.deleteRec recordId result => deleteStep s recordId result

def applyOps (s : ClientState) (ops : List ClientOp) : ClientState :=
  ops.foldl applyOp s

/-! ## Counter invariants -/

/-- Every prompt and script counter in the state is non-negative. -/
def countersNonneg (s : ClientState) : Prop :=
  (∀ p ∈ s.availablePrompts, 0 ≤ p.total_records ∧ 0 ≤ p.unique_speakers) ∧
    ∀ c ∈ s.availableScripts, 0 ≤ c.total_records ∧ 0 ≤ c.unique_speakers

instance (s : ClientState) : Decidable (countersNonneg s) := by
  unfold countersNonneg
  infer_instance

/-- The invariant the spec states for every entity:
`unique_contributor_count ≤ total_submissions`. -/
def uniqueLeTotal (s : ClientState) : Prop :=
  (∀ p ∈ s.availablePrompts, p.unique_speakers ≤ p.total_records) ∧
    ∀ c ∈ s.availableScripts, c.unique_speakers ≤ c.total_records

instance (s : ClientState) : Decidable (uniqueLeTotal s) := by
  unfold uniqueLeTotal
  infer_instance

/-- Number of the signed-in contributor's own records for a given prompt. -/
def ownPromptRecords (s : ClientState) (promptId : String) : Nat :=
  (s.myRecordsItems.filter fun item => item.prompt_id == promptId).length

/-- Number of the signed-in contributor's own records for a given script. -/
def ownScriptRecords (s : ClientState) (scriptId : String) : Nat :=
  (s.myRecordsItems.filter fun item => item.script_id == scriptId).length

/-- Consistency of one entity's counter pair `(t, u)` with the number `n` of
the contributor's own live records for that entity: with no own records the
counters just satisfy `0 ≤ u ≤ t`; with `n ≥ 1` own records the contributor
is counted once in `u` and `n` times in `t`, so `u ≥ 1` and the other
contributors satisfy `u - 1 ≤ t - n`. -/
def entityConsistent (t u : Int) (n : Nat) : Prop :=
  if n = 0 then 0 ≤ u ∧ u ≤ t else 1 ≤ u ∧ u - 1 ≤ t - (n : Int)

instance (t u : Int) (n : Nat) : Decidable (entityConsistent t u n) := by
  unfold entityConsistent
  infer_instance

/-- The strengthened state invariant: every prompt and script entry is
consistent with the contributor's own record counts. -/
def statsConsistent (s : ClientState) : Prop :=
  (∀ p ∈ s.availablePrompts,
      entityConsistent p.total_records p.unique_speakers
        (ownPromptRecords s p.prompt_id)) ∧
    ∀ c ∈ s.availableScripts,
      entityConsistent c.total_records c.unique_speakers
        (ownScriptRecords s c.script_id)

instance (s : ClientState) : Decidable (statsConsistent s) := by
  unfold statsConsistent
  infer_instance

/-! ## Leaderboard -/

/-- Embedding of `fetchLeaderboard` from src/web/src/leaderboard.ts builds the request
query with `searchParams.set('limit', String(limit))`; the default limit
parameter value is 10. -/
def fetchLeaderboardQuery (limit : Int := 10) : String :=
  "limit=" ++ toString limit

/-- One row of the per-contributor totals the leaderboard is projected from
(`users/{uid}`: `contribution_count`, `display_name`, `is_hidden`). -/
structure ContributorRow where
  uid : String
  display_name : String
  contribution_count : Int
  is_hidden : Bool
deriving DecidableEq, Repr

/-- Modelled from the spec: the display-name sort key of §4.5 — display name
ascending, falling back to the contributor id when no display name is set. -/
def leaderboardName (row : ContributorRow) : String :=
  if row.display_name = "" then row.uid else row.display_name

/-- Strict lexicographic order on character lists (the standard string
collation used for the ascending name and id sort levels). -/
def charListLt : List Char → List Char → Bool
  | _, [] => false
  | [], _ :: _ => true
  | a :: as, b :: bs => decide (a < b) || (a == b && charListLt as bs)

/-- Strict lexicographic order on strings. -/
def stringLt (a b : String) : Bool :=
  charListLt a.toList b.toList

/-- Reflexive lexicographic order on strings. -/
def stringLe (a b : String) : Bool :=
  stringLt a b || a == b

/-- Modelled from the spec: the three-level ordering of §4.5 — (1)
contribution count descending, (2) display name (with uid fallback)
ascending, (3) uid ascending. -/
def leaderboardLE (a b : ContributorRow) : Bool :=
  decide (b.contribution_count < a.contribution_count) ||
    (a.contribution_count == b.contribution_count &&
      (stringLt (leaderboardName a) (leaderboardName b) ||
        (leaderboardName a == leaderboardName b && stringLe a.uid b.uid)))

/-- Modelled from the spec: `limit` is bounded to 1..50 (§4.5, and the Step9
tutorial: `limit`: `1..50`, default 10). -/
def boundedLimit (limit : Nat) : Nat :=
  min 50 (max 1 limit)

/-- The three-level ordering as a decidable relation. -/
def leaderboardOrder (a b : ContributorRow) : Prop :=
  leaderboardLE a b = true

instance : DecidableRel leaderboardOrder := by
  unfold leaderboardOrder
  infer_instance

/-- Modelled from the spec: the Leaderboard Projector `top_contributors`
(§4.5) — the server endpoint is not among the web sources. Rows with
`count > 0` and not hidden, sorted by the deterministic three-level
ordering, truncated to the bounded limit. -/
def topContributors (rows : List ContributorRow) (limit : Nat) :
    List ContributorRow :=
  (((rows.filter fun r =>
      0 < r.contribution_count ∧ r.is_hidden = false)).insertionSort
        leaderboardOrder).take (boundedLimit limit)

/-! ## Concrete fixtures used by witnesses and counterexamples -/

def sampleDraft : RegisterDraft :=
  { recordId := "r1"
    rawPath := "raw/u1/r1.webm"
    scriptId := "s1"
    promptId := "p1"
    mimeType := some "audio/webm"
    sizeBytes := some 1000
    durationMs := some 1200 }

def samplePrompt : PromptItem :=
  { prompt_id := "p1"
    text := "a"
    order := 1
    is_active := true
    total_records := 3
    unique_speakers := 2 }

def sampleScript : ScriptItem :=
  { script_id := "s1"
    title := "t"
    description := ""
    order := 1
    is_active := true
    prompt_count := 1
    total_records := 3
    unique_speakers := 2 }

def sampleState : ClientState :=
  { myRecordsItems := []
    availablePrompts := [samplePrompt]
    availableScripts := [sampleScript]
    uploadCompletedForCurrentRecording := true
    registerStatus := ""
    myRecordsStatus := "" }

def sampleDeleteBody : DeleteMyRecordResponse :=
  { ok := true, record_id := "r1", deleted := true }

def sampleRegisterBodyNew : RegisterRecordResponse :=
  { ok := true, record_id := "r1", status := "uploaded", already_registered := false }

def sampleRegisterBodyDup : RegisterRecordResponse :=
  { ok := true, record_id := "r1", status := "uploaded", already_registered := true }

def notFoundResponse : HttpResponse :=
  { status := 404, detail := some "record not found", bodyText := "", blobData := "" }

/-! ## Claims -/

/-- Claim C3: for every registration call whose response reports
`already_registered = true`, no aggregate statistic is mutated — the prompt
and script lists (hence every entity's `total_records` and `unique_speakers`)
are identical before and after, because only the non-`already_registered`
branch of `runRegisterForDraft` applies any stats delta. -/
theorem register_already_registered_no_stats_change (s : ClientState)
    (draft : RegisterDraft) (response : RegisterRecordResponse)
    (h : response.already_registered = true) :
    (runRegisterForDraft s draft (Except.ok response)).availablePrompts =
        s.availablePrompts ∧
      (runRegisterForDraft s draft (Except.ok response)).availableScripts =
        s.availableScripts := by
  simp [runRegisterForDraft, h]

/-- Witness for C3 at a concrete state and duplicate-registration response. -/
theorem register_already_registered_no_stats_change_witness :
    (runRegisterForDraft sampleState sampleDraft
          (Except.ok sampleRegisterBodyDup)).availablePrompts =
        sampleState.availablePrompts ∧
      (runRegisterForDraft sampleState sampleDraft
          (Except.ok sampleRegisterBodyDup)).availableScripts =
        sampleState.availableScripts :=
  register_already_registered_no_stats_change sampleState sampleDraft
    sampleRegisterBodyDup rfl

/-- Claim C6: for every registration attempt that fails (the `registerRecord`
call rejects), the caller's state shows zero observable change: the prompt and
script statistics and the record list are untouched (no stats delta is
applied), and `uploadCompletedForCurrentRecording` is cleared so the same
registration can be retried. -/
theorem register_failure_no_observable_change (s : ClientState)
    (draft : RegisterDraft) (msg : String) :
    (runRegisterForDraft s draft (Except.error msg)).availablePrompts =
        s.availablePrompts ∧
      (runRegisterForDraft s draft (Except.error msg)).availableScripts =
        s.availableScripts ∧
      (runRegisterForDraft s draft (Except.error msg)).myRecordsItems =
        s.myRecordsItems ∧
      (runRegisterForDraft s draft
            (Except.error msg)).uploadCompletedForCurrentRecording = false ∧
      (runRegisterForDraft s draft (Except.error msg)).registerStatus =
        "Register status: failed (" ++ msg ++ ")" := by
  simp [runRegisterForDraft]

/-- Claim C10: `getUploadTargetFromMimeType` returns
(ext = webm, contentType = audio/webm) when the lowercased input contains
"webm", else (ext = mp4, contentType = audio/mp4) when it contains "mp4",
and throws for every other input, so any successful upload target is one of
these two pairs. -/
theorem getUploadTargetFromMimeType_spec (mimeType : String) :
    (includes (jsToLowerCase mimeType) "webm" = true →
        getUploadTargetFromMimeType mimeType =
          Except.ok { ext := "webm", contentType := "audio/webm" }) ∧
      (includes (jsToLowerCase mimeType) "webm" = false →
        includes (jsToLowerCase mimeType) "mp4" = true →
        getUploadTargetFromMimeType mimeType =
          Except.ok { ext := "mp4", contentType := "audio/mp4" }) ∧
      (includes (jsToLowerCase mimeType) "webm" = false →
        includes (jsToLowerCase mimeType) "mp4" = false →
        getUploadTargetFromMimeType mimeType =
          Except.error ("Unsupported recording format: " ++ mimeType)) ∧
      ∀ target, getUploadTargetFromMimeType mimeType = Except.ok target →
        target = { ext := "webm", contentType := "audio/webm" } ∨
        target = { ext := "mp4", contentType := "audio/mp4" } := by
  refine ⟨fun h1 => ?_, fun h1 h2 => ?_, fun h1 h2 => ?_, fun target ht => ?_⟩
  · simp [getUploadTargetFromMimeType, h1]
  · simp [getUploadTargetFromMimeType, h1, h2]
  · simp [getUploadTargetFromMimeType, h1, h2]
  · by_cases h1 : includes (jsToLowerCase mimeType) "webm" = true
    · simp [getUploadTargetFromMimeType, h1] at ht
      exact Or.inl ht.symm
    · by_cases h2 : includes (jsToLowerCase mimeType) "mp4" = true
      · simp [getUploadTargetFromMimeType, h1, h2] at ht
        exact Or.inr ht.symm
      · simp [getUploadTargetFromMimeType, h1, h2] at ht

/-- Witness for C10 at the concrete mime type "audio/webm;codecs=opus". -/
theorem getUploadTargetFromMimeType_spec_witness :
    getUploadTargetFromMimeType "audio/webm;codecs=opus" =
      Except.ok { ext := "webm", contentType := "audio/webm" } :=
  (getUploadTargetFromMimeType_spec "audio/webm;codecs=opus").1 (by decide)

/-- Claim C9: the playback fetch performs at most one retry; a second
signed-URL download happens exactly when the first download failed with HTTP
401 or 403 and a body indicating an expired or invalid signature; a
non-retryable first failure, and any failure of the second download, are
propagated unchanged to the caller. -/
theorem fetchRecordPlaybackBlobWithAutoRetry_spec
    (firstDownload secondDownload : HttpResponse) :
    autoRetryDownloadCount firstDownload ≤ 2 ∧
      (autoRetryDownloadCount firstDownload = 2 ↔
        firstDownload.ok = false ∧
          (firstDownload.status = 401 ∨ firstDownload.status = 403) ∧
          (includes (jsToLowerCase (jsTrim (jsSliceTo firstDownload.bodyText 400)))
                "expired" = true ∨
            includes (jsToLowerCase (jsTrim (jsSliceTo firstDownload.bodyText 400)))
                "request has expired" = true ∨
            includes (jsToLowerCase (jsTrim (jsSliceTo firstDownload.bodyText 400)))
                "signature" = true)) ∧
      (∀ e, fetchBlobFromSignedPlaybackUrl firstDownload = Except.error e →
        isRetryableSignedUrlError e = false →
        fetchRecordPlaybackBlobWithAutoRetry firstDownload secondDownload =
          Except.error e) ∧
      ∀ e e2, fetchBlobFromSignedPlaybackUrl firstDownload = Except.error e →
        isRetryableSignedUrlError e = true →
        fetchBlobFromSignedPlaybackUrl secondDownload = Except.error e2 →
        fetchRecordPlaybackBlobWithAutoRetry firstDownload secondDownload =
          Except.error e2 := by
  refine ⟨?_, ?_, ?_, ?_⟩
  · unfold autoRetryDownloadCount
    cases fetchBlobFromSignedPlaybackUrl firstDownload with
    | ok b => simp
    | error e => cases h : isRetryableSignedUrlError e <;> simp [h]
  · by_cases hok : HttpResponse.ok firstDownload = true
    · simp [autoRetryDownloadCount, fetchBlobFromSignedPlaybackUrl, hok]
    · have hok2 : HttpResponse.ok firstDownload = false := by
        simpa using hok
      have hbool : autoRetryDownloadCount firstDownload = 2 ↔
          ((firstDownload.status == 401 || firstDownload.status == 403) &&
            (includes (jsToLowerCase (jsTrim (jsSliceTo firstDownload.bodyText 400)))
                "expired" ||
              includes (jsToLowerCase (jsTrim (jsSliceTo firstDownload.bodyText 400)))
                "request has expired" ||
              includes (jsToLowerCase (jsTrim (jsSliceTo firstDownload.bodyText 400)))
                "signature")) = true := by
        simp only [autoRetryDownloadCount, fetchBlobFromSignedPlaybackUrl, hok2,
          Bool.not_false, if_true, isRetryableSignedUrlError]
        cases hb : ((firstDownload.status == 401 || firstDownload.status == 403) &&
            (includes (jsToLowerCase (jsTrim (jsSliceTo firstDownload.bodyText 400)))
                "expired" ||
              includes (jsToLowerCase (jsTrim (jsSliceTo firstDownload.bodyText 400)))
                "request has expired" ||
              includes (jsToLowerCase (jsTrim (jsSliceTo firstDownload.bodyText 400)))
                "signature")) <;> simp [hb]
      rw [hbool]
      simp [hok2, Bool.and_eq_true, Bool.or_eq_true, beq_iff_eq, or_assoc]
  · intro e he hret
    simp [fetchRecordPlaybackBlobWithAutoRetry, he, hret]
  · intro e e2 he hret he2
    simp [fetchRecordPlaybackBlobWithAutoRetry, he, hret, he2]

/-- Witness for C9: a first download failing 403 with an expired-signature
body triggers the retry, and the second failure is returned unchanged. -/
theorem fetchRecordPlaybackBlobWithAutoRetry_spec_witness :
    autoRetryDownloadCount
        { status := 403, detail := none
          bodyText := "Request has expired", blobData := "" } = 2 ∧
      fetchRecordPlaybackBlobWithAutoRetry
          { status := 403, detail := none
            bodyText := "Request has expired", blobData := "" }
          { status := 500, detail := none, bodyText := "", blobData := "" } =
        Except.error
          { message := "Failed to load audio: HTTP 500", retryableExpired := false } :=
  And.intro
    ((fetchRecordPlaybackBlobWithAutoRetry_spec
          { status := 403, detail := none
            bodyText := "Request has expired", blobData := "" }
          { status := 500, detail := none, bodyText := "", blobData := "" }).2.1.mpr
      (by decide))
    ((fetchRecordPlaybackBlobWithAutoRetry_spec
          { status := 403, detail := none
            bodyText := "Request has expired", blobData := "" }
          { status := 500, detail := none, bodyText := "", blobData := "" }).2.2.2
      { message := "Failed to load audio: HTTP 403 (Request has expired)"
        retryableExpired := true }
      { message := "Failed to load audio: HTTP 500", retryableExpired := false }
      rfl (by decide) rfl)

/-- Counterexample to claim C7 as stated: with the delete endpoint responding
404 NotFound (detail "record not found"), `deleteMyRecord` throws the detail
instead of returning a success-equivalent value, and `handleDeleteMyRecord`
reports "delete failed" — the caller treats the outcome as a failure. -/
theorem delete_notfound_counterexample :
    deleteMyRecord notFoundResponse sampleDeleteBody =
        Except.error "record not found" ∧
      (handleDeleteMyRecord sampleState "r1"
            (Except.error "record not found")).myRecordsStatus =
        "My records: delete failed (record not found)" := by
  refine ⟨rfl, rfl⟩

/-- Claim C7 (amended): deleting a record that is already gone is surfaced as
a failure, not treated as success-equivalent — `deleteMyRecord` throws
`parseError` for every non-ok response (404 NotFound included), and
`handleDeleteMyRecord` then reports "delete failed" while leaving the local
statistics untouched (so the retry of an already-applied deletion mutates
nothing, but is reported as an error). -/
theorem delete_notfound_surfaces_failure (response : HttpResponse)
    (body : DeleteMyRecordResponse) (s : ClientState) (recordId msg : String)
    (hok : response.ok = false) :
    deleteMyRecord response body = Except.error (parseError response) ∧
      (handleDeleteMyRecord s recordId (Except.error msg)).myRecordsStatus =
        "My records: delete failed (" ++ msg ++ ")" ∧
      (handleDeleteMyRecord s recordId (Except.error msg)).availablePrompts =
        s.availablePrompts ∧
      (handleDeleteMyRecord s recordId (Except.error msg)).availableScripts =
        s.availableScripts := by
  refine ⟨by simp [deleteMyRecord, hok], ?_, ?_, ?_⟩ <;>
    simp [handleDeleteMyRecord]

/-- Witness for C7 (amended) at the concrete 404 response. -/
theorem delete_notfound_surfaces_failure_witness :
    HttpResponse.ok notFoundResponse = false ∧
      deleteMyRecord notFoundResponse sampleDeleteBody =
        Except.error (parseError notFoundResponse) :=
  And.intro (by decide)
    (delete_notfound_surfaces_failure notFoundResponse sampleDeleteBody
        sampleState "r1" "record not found" (by decide)).1

/-- Effect of `applyLocalPromptStatsDelta` on the matching entry when no
clamping occurs: the deltas are added exactly. -/
theorem applyLocalPromptStatsDelta_getElem (ps : List PromptItem) (pid : String)
    (td ud : Int) (i : Nat) (p : PromptItem) (hp : ps[i]? = some p)
    (hpid : p.prompt_id = pid) (hpt : 0 ≤ p.total_records + td)
    (hpu : 0 ≤ p.unique_speakers + ud) :
    (applyLocalPromptStatsDelta ps pid td ud)[i]? =
      some { p with
              total_records := p.total_records + td
              unique_speakers := p.unique_speakers + ud } := by
  rw [applyLocalPromptStatsDelta, List.getElem?_map, hp, Option.map_some']
  simp only [hpid, bne_self_eq_false, Bool.false_eq_true, if_false,
    Option.some.injEq]
  have h1 : max 0 (p.total_records + td) = p.total_records + td := by omega
  have h2 : max 0 (p.unique_speakers + ud) = p.unique_speakers + ud := by omega
  rw [h1, h2]

/-- Effect of `applyLocalScriptStatsDelta` on the matching entry when no
clamping occurs: the deltas are added exactly. -/
theorem applyLocalScriptStatsDelta_getElem (cs : List ScriptItem) (sid : String)
    (td ud : Int) (j : Nat) (c : ScriptItem) (hc : cs[j]? = some c)
    (hcid : c.script_id = sid) (hct : 0 ≤ c.total_records + td)
    (hcu : 0 ≤ c.unique_speakers + ud) :
    (applyLocalScriptStatsDelta cs sid td ud)[j]? =
      some { c with
              total_records := c.total_records + td
              unique_speakers := c.unique_speakers + ud } := by
  rw [applyLocalScriptStatsDelta, List.getElem?_map, hc, Option.map_some']
  simp only [hcid, bne_self_eq_false, Bool.false_eq_true, if_false,
    Option.some.injEq]
  have h1 : max 0 (c.total_records + td) = c.total_records + td := by omega
  have h2 : max 0 (c.unique_speakers + ud) = c.unique_speakers + ud := by omega
  rw [h1, h2]

/-- Claim C1: for a registration whose response is not `already_registered`,
the draft's prompt entry gains exactly +1 on `total_records`, and its
`unique_speakers` gains +1 exactly when the contributor had no previous record
for that prompt (gains 0 when they had at least one); independently, the same
holds for the draft's script entry. -/
theorem register_new_record_stats (s : ClientState) (draft : RegisterDraft)
    (response : RegisterRecordResponse)
    (hresp : response.already_registered = false)
    (i : Nat) (p : PromptItem) (hp : s.availablePrompts[i]? = some p)
    (hpid : p.prompt_id = draft.promptId)
    (hpt : 0 ≤ p.total_records) (hpu : 0 ≤ p.unique_speakers)
    (j : Nat) (c : ScriptItem) (hc : s.availableScripts[j]? = some c)
    (hcid : c.script_id = draft.scriptId)
    (hct : 0 ≤ c.total_records) (hcu : 0 ≤ c.unique_speakers) :
    (runRegisterForDraft s draft (Except.ok response)).availablePrompts[i]? =
        some { p with
                total_records := p.total_records + 1
                unique_speakers := p.unique_speakers +
                  if s.myRecordsItems.any
                      (fun item => item.prompt_id == draft.promptId) then 0
                  else 1 } ∧
      (runRegisterForDraft s draft (Except.ok response)).availableScripts[j]? =
        some { c with
                total_records := c.total_records + 1
                unique_speakers := c.unique_speakers +
                  if s.myRecordsItems.any
                      (fun item => item.script_id == draft.scriptId) then 0
                  else 1 } := by
  have hprompts :
      (runRegisterForDraft s draft (Except.ok response)).availablePrompts =
        applyLocalPromptStatsDelta s.availablePrompts draft.promptId 1
          (if s.myRecordsItems.any (fun item => item.prompt_id == draft.promptId)
            then 0 else 1) := by
    simp [runRegisterForDraft, hresp]
  have hscripts :
      (runRegisterForDraft s draft (Except.ok response)).availableScripts =
        applyLocalScriptStatsDelta s.availableScripts draft.scriptId 1
          (if s.myRecordsItems.any (fun item => item.script_id == draft.scriptId)
            then 0 else 1) := by
    simp [runRegisterForDraft, hresp]
  constructor
  · rw [hprompts]
    exact applyLocalPromptStatsDelta_getElem _ _ _ _ _ _ hp hpid (by omega)
      (by split <;> omega)
  · rw [hscripts]
    exact applyLocalScriptStatsDelta_getElem _ _ _ _ _ _ hc hcid (by omega)
      (by split <;> omega)

/-- Witness for C1: a contributor with no previous records registers into a
prompt and script showing (3, 2); both counters gain exactly 1. -/
theorem register_new_record_stats_witness :
    (runRegisterForDraft sampleState sampleDraft
          (Except.ok sampleRegisterBodyNew)).availablePrompts[0]? =
        some { samplePrompt with total_records := 4, unique_speakers := 3 } ∧
      (runRegisterForDraft sampleState sampleDraft
            (Except.ok sampleRegisterBodyNew)).availableScripts[0]? =
        some { sampleScript with total_records := 4, unique_speakers := 3 } := by
  have h := register_new_record_stats sampleState sampleDraft
    sampleRegisterBodyNew rfl 0 samplePrompt rfl rfl (by decide) (by decide)
    0 sampleScript rfl rfl (by decide) (by decide)
  simpa [sampleState, samplePrompt, sampleScript] using h

/-! ## Helper lemmas for the reachability invariants -/

theorem any_iff_length_filter_ne_zero {α : Type} (l : List α) (q : α → Bool) :
    l.any q = true ↔ (l.filter q).length ≠ 0 := by
  induction l with
  | nil => simp
  | cons a l ih =>
      cases hq : q a <;> simp [List.filter_cons, hq, ih]

theorem any_rq_iff_length_ne_zero {α : Type} (l : List α) (q r : α → Bool) :
    (l.any fun a => r a && q a) = true ↔
      ((l.filter r).filter q).length ≠ 0 := by
  induction l with
  | nil => simp
  | cons a l ih =>
      cases hr : r a <;> cases hq : q a <;>
        simp [List.filter_cons, hr, hq, ih]

theorem length_filter_filter_le {α : Type} (l : List α) (q r : α → Bool) :
    ((l.filter r).filter q).length ≤ (l.filter q).length :=
  List.Sublist.length_le (List.Sublist.filter q (List.filter_sublist l))

theorem length_filter_and_lt {α : Type} (l : List α) (q r : α → Bool)
    (x : α) (hx : x ∈ l) (hqx : q x = true) (hrx : r x = false) :
    (l.filter fun a => q a && r a).length < (l.filter q).length := by
  induction l with
  | nil => cases hx
  | cons a l ih =>
      rcases List.mem_cons.1 hx with rfl | hx2
      · have hle : (l.filter fun a => q a && r a).length ≤ (l.filter q).length := by
          rw [← List.filter_filter]
          exact length_filter_filter_le l q r
        simp [List.filter_cons, hqx, hrx]
        omega
      · cases hr : r a <;> cases hq : q a <;>
          · have hih := ih hx2
            simp [List.filter_cons, hr, hq]
            omega

theorem length_filter_filter_lt {α : Type} (l : List α) (q r : α → Bool)
    (x : α) (hx : x ∈ l) (hqx : q x = true) (hrx : r x = false) :
    ((l.filter r).filter q).length < (l.filter q).length := by
  rw [List.filter_filter]
  exact length_filter_and_lt l q r x hx hqx hrx

theorem length_filter_append_record {α : Type} (l : List α) (x : α)
    (q : α → Bool) :
    ((l ++ [x]).filter q).length =
      (l.filter q).length + if q x then 1 else 0 := by
  cases hq : q x <;> simp [List.filter_append, List.filter_cons, hq]

/-! Arithmetic behaviour of one entity's `(total, unique)` counter pair under
the register and delete deltas, relative to the count of own records. -/

theorem entityConsistent_le (t u : Int) (n : Nat)
    (h : entityConsistent t u n) : 0 ≤ u ∧ u ≤ t := by
  unfold entityConsistent at h
  split at h <;> omega

theorem entityConsistent_register (t u : Int) (n : Nat) (had : Bool)
    (hhad : had = true ↔ n ≠ 0) (h : entityConsistent t u n) :
    entityConsistent (max 0 (t + 1)) (max 0 (u + if had then 0 else 1))
      (n + 1) := by
  unfold entityConsistent at *
  cases had <;> split at h <;> simp_all <;> omega

theorem entityConsistent_shrink (t u : Int) (n n2 : Nat) (hle : n2 ≤ n)
    (h : entityConsistent t u n) : entityConsistent t u n2 := by
  unfold entityConsistent at *
  split at h <;> split <;> omega

theorem entityConsistent_delete (t u : Int) (n n2 : Nat) (hlt : n2 < n)
    (hasOther : Bool) (hho : hasOther = true ↔ n2 ≠ 0)
    (h : entityConsistent t u n) :
    entityConsistent (max 0 (t + -1)) (max 0 (u + if hasOther then 0 else -1))
      n2 := by
  unfold entityConsistent at *
  cases hasOther <;> split at h <;> split <;> simp_all <;> omega

/-! Shape of the step functions' fields. -/

theorem registerStep_already (s : ClientState) (draft : RegisterDraft)
    (response : RegisterRecordResponse)
    (hr : response.already_registered = true) :
    registerStep s draft response =
      { s with registerStatus := "Register status: already registered" } := by
  simp [registerStep, runRegisterForDraft, hr]

theorem registerStep_new_prompts (s : ClientState) (draft : RegisterDraft)
    (response : RegisterRecordResponse)
    (hr : response.already_registered = false) :
    (registerStep s draft response).availablePrompts =
      applyLocalPromptStatsDelta s.availablePrompts draft.promptId 1
        (if s.myRecordsItems.any (fun item => item.prompt_id == draft.promptId)
          then 0 else 1) := by
  simp [registerStep, runRegisterForDraft, hr]

theorem registerStep_new_scripts (s : ClientState) (draft : RegisterDraft)
    (response : RegisterRecordResponse)
    (hr : response.already_registered = false) :
    (registerStep s draft response).availableScripts =
      applyLocalScriptStatsDelta s.availableScripts draft.scriptId 1
        (if s.myRecordsItems.any (fun item => item.script_id == draft.scriptId)
          then 0 else 1) := by
  simp [registerStep, runRegisterForDraft, hr]

theorem registerStep_new_records (s : ClientState) (draft : RegisterDraft)
    (response : RegisterRecordResponse)
    (hr : response.already_registered = false) :
    (registerStep s draft response).myRecordsItems =
      s.myRecordsItems ++ [newRecordFromDraft draft] := by
  simp [registerStep, runRegisterForDraft, hr]

theorem registerErr_state (s : ClientState) (draft : RegisterDraft)
    (msg : String) :
    runRegisterForDraft s draft (Except.error msg) =
      { s with
        uploadCompletedForCurrentRecording := false
        registerStatus := "Register status: failed (" ++ msg ++ ")" } := by
  simp [runRegisterForDraft]

theorem deleteStep_ok_records (s : ClientState) (recordId : String)
    (body : DeleteMyRecordResponse) :
    (deleteStep s recordId (Except.ok body)).myRecordsItems =
      s.myRecordsItems.filter fun item => item.record_id != recordId := by
  cases hf : s.myRecordsItems.find? fun item => item.record_id == recordId <;>
    simp [deleteStep, handleDeleteMyRecord, hf]

theorem deleteStep_ok_prompts_found (s : ClientState) (recordId : String)
    (body : DeleteMyRecordResponse) (target : MyRecordItem)
    (hf : (s.myRecordsItems.find? fun item => item.record_id == recordId) =
      some target) :
    (deleteStep s recordId (Except.ok body)).availablePrompts =
      applyLocalPromptStatsDelta s.availablePrompts target.prompt_id (-1)
        (if s.myRecordsItems.any (fun item =>
            item.record_id != recordId && item.prompt_id == target.prompt_id)
          then 0 else -1) := by
  simp [deleteStep, handleDeleteMyRecord, hf]

theorem deleteStep_ok_scripts_found (s : ClientState) (recordId : String)
    (body : DeleteMyRecordResponse) (target : MyRecordItem)
    (hf : (s.myRecordsItems.find? fun item => item.record_id == recordId) =
      some target) :
    (deleteStep s recordId (Except.ok body)).availableScripts =
      applyLocalScriptStatsDelta s.availableScripts target.script_id (-1)
        (if s.myRecordsItems.any (fun item =>
            item.record_id != recordId && item.script_id == target.script_id)
          then 0 else -1) := by
  simp [deleteStep, handleDeleteMyRecord, hf]

theorem deleteStep_ok_prompts_notfound (s : ClientState) (recordId : String)
    (body : DeleteMyRecordResponse)
    (hf : (s.myRecordsItems.find? fun item => item.record_id == recordId) =
      none) :
    (deleteStep s recordId (Except.ok body)).availablePrompts =
        s.availablePrompts ∧
      (deleteStep s recordId (Except.ok body)).availableScripts =
        s.availableScripts := by
  constructor <;> simp [deleteStep, handleDeleteMyRecord, hf]

theorem deleteStep_err_state (s : ClientState) (recordId msg : String) :
    deleteStep s recordId (Except.error msg) =
      { s with
        myRecordsStatus := "My records: delete failed (" ++ msg ++ ")" } := by
  cases hf : s.myRecordsItems.find? fun item => item.record_id == recordId <;>
    simp [deleteStep, handleDeleteMyRecord, hf]

/-! Preservation of counter nonnegativity. -/

theorem applyLocalPromptStatsDelta_nonneg (ps : List PromptItem) (pid : String)
    (td ud : Int)
    (h : ∀ p ∈ ps, 0 ≤ p.total_records ∧ 0 ≤ p.unique_speakers) :
    ∀ q ∈ applyLocalPromptStatsDelta ps pid td ud,
      0 ≤ q.total_records ∧ 0 ≤ q.unique_speakers := by
  intro q hq
  rcases List.mem_map.1 hq with ⟨p, hpmem, rfl⟩
  by_cases hb : (p.prompt_id != pid) = true
  · simpa [hb] using h p hpmem
  · have hb2 : (p.prompt_id != pid) = false := eq_false_of_ne_true hb
    simp only [hb2, Bool.false_eq_true, if_false]
    exact ⟨le_max_left _ _, le_max_left _ _⟩

theorem applyLocalScriptStatsDelta_nonneg (cs : List ScriptItem) (sid : String)
    (td ud : Int)
    (h : ∀ c ∈ cs, 0 ≤ c.total_records ∧ 0 ≤ c.unique_speakers) :
    ∀ q ∈ applyLocalScriptStatsDelta cs sid td ud,
      0 ≤ q.total_records ∧ 0 ≤ q.unique_speakers := by
  intro q hq
  rcases List.mem_map.1 hq with ⟨c, hcmem, rfl⟩
  by_cases hb : (c.script_id != sid) = true
  · simpa [hb] using h c hcmem
  · have hb2 : (c.script_id != sid) = false := eq_false_of_ne_true hb
    simp only [hb2, Bool.false_eq_true, if_false]
    exact ⟨le_max_left _ _, le_max_left _ _⟩

theorem countersNonneg_applyOp (s : ClientState) (op : ClientOp)
    (h : countersNonneg s) : countersNonneg (applyOp s op) := by
  obtain ⟨hP, hS⟩ := h
  cases op with
  | registerOk draft response =>
      show countersNonneg (registerStep s draft response)
      cases hr : response.already_registered with
      | true =>
          rw [registerStep_already s draft response hr]
          exact ⟨hP, hS⟩
      | false =>
          constructor
          · rw [registerStep_new_prompts s draft response hr]
            exact applyLocalPromptStatsDelta_nonneg _ _ _ _ hP
          · rw [registerStep_new_scripts s draft response hr]
            exact applyLocalScriptStatsDelta_nonneg _ _ _ _ hS
  | registerErr draft msg =>
      show countersNonneg (runRegisterForDraft s draft (Except.error msg))
      rw [registerErr_state]
      exact ⟨hP, hS⟩
  | deleteRec recordId result =>
      show countersNonneg (deleteStep s recordId result)
      cases result with
      | error msg =>
          rw [deleteStep_err_state]
          exact ⟨hP, hS⟩
      | ok body =>
          cases hf : s.myRecordsItems.find?
              (fun item => item.record_id == recordId) with
          | none =>
              obtain ⟨h1, h2⟩ := deleteStep_ok_prompts_notfound s recordId body hf
              constructor
              · rw [h1]; exact hP
              · rw [h2]; exact hS
          | some target =>
              constructor
              · rw [deleteStep_ok_prompts_found s recordId body target hf]
                exact applyLocalPromptStatsDelta_nonneg _ _ _ _ hP
              · rw [deleteStep_ok_scripts_found s recordId body target hf]
                exact applyLocalScriptStatsDelta_nonneg _ _ _ _ hS

/-! Preservation of the strengthened consistency invariant, entity list by
entity list. -/

theorem promptConsistency_register (l : List MyRecordItem)
    (ps : List PromptItem) (pid : String) (rec : MyRecordItem)
    (hrec : rec.prompt_id = pid)
    (hP : ∀ p ∈ ps, entityConsistent p.total_records p.unique_speakers
      (l.filter fun item => item.prompt_id == p.prompt_id).length) :
    ∀ p ∈ applyLocalPromptStatsDelta ps pid 1
        (if l.any fun item => item.prompt_id == pid then 0 else 1),
      entityConsistent p.total_records p.unique_speakers
        ((l ++ [rec]).filter fun item => item.prompt_id == p.prompt_id).length := by
  intro p hp
  rcases List.mem_map.1 hp with ⟨p0, hp0, rfl⟩
  by_cases hb : (p0.prompt_id != pid) = true
  · have hne : p0.prompt_id ≠ pid := by simpa using hb
    have hbeq : (rec.prompt_id == p0.prompt_id) = false := by
      rw [hrec]
      exact beq_eq_false_iff_ne.mpr fun heq => hne heq.symm
    simp only [hb, if_true]
    rw [length_filter_append_record, hbeq]
    simpa using hP p0 hp0
  · have heq : p0.prompt_id = pid := by
      have hb2 : (p0.prompt_id != pid) = false := eq_false_of_ne_true hb
      simpa using hb2
    have hbeq : (rec.prompt_id == p0.prompt_id) = true := by
      rw [hrec, heq]
      exact beq_self_eq_true pid
    have hhad : (l.any fun item => item.prompt_id == pid) = true ↔
        (l.filter fun item => item.prompt_id == p0.prompt_id).length ≠ 0 := by
      rw [heq]
      exact any_iff_length_filter_ne_zero l _
    have hb2 : (p0.prompt_id != pid) = false := eq_false_of_ne_true hb
    simp only [hb2, Bool.false_eq_true, if_false]
    rw [length_filter_append_record, hbeq]
    simpa using entityConsistent_register p0.total_records p0.unique_speakers
      (l.filter fun item => item.prompt_id == p0.prompt_id).length
      (l.any fun item => item.prompt_id == pid) hhad (hP p0 hp0)

theorem scriptConsistency_register (l : List MyRecordItem)
    (cs : List ScriptItem) (sid : String) (rec : MyRecordItem)
    (hrec : rec.script_id = sid)
    (hS : ∀ c ∈ cs, entityConsistent c.total_records c.unique_speakers
      (l.filter fun item => item.script_id == c.script_id).length) :
    ∀ c ∈ applyLocalScriptStatsDelta cs sid 1
        (if l.any fun item => item.script_id == sid then 0 else 1),
      entityConsistent c.total_records c.unique_speakers
        ((l ++ [rec]).filter fun item => item.script_id == c.script_id).length := by
  intro c hc
  rcases List.mem_map.1 hc with ⟨c0, hc0, rfl⟩
  by_cases hb : (c0.script_id != sid) = true
  · have hne : c0.script_id ≠ sid := by simpa using hb
    have hbeq : (rec.script_id == c0.script_id) = false := by
      rw [hrec]
      exact beq_eq_false_iff_ne.mpr fun heq => hne heq.symm
    simp only [hb, if_true]
    rw [length_filter_append_record, hbeq]
    simpa using hS c0 hc0
  · have heq : c0.script_id = sid := by
      have hb2 : (c0.script_id != sid) = false := eq_false_of_ne_true hb
      simpa using hb2
    have hbeq : (rec.script_id == c0.script_id) = true := by
      rw [hrec, heq]
      exact beq_self_eq_true sid
    have hhad : (l.any fun item => item.script_id == sid) = true ↔
        (l.filter fun item => item.script_id == c0.script_id).length ≠ 0 := by
      rw [heq]
      exact any_iff_length_filter_ne_zero l _
    have hb2 : (c0.script_id != sid) = false := eq_false_of_ne_true hb
    simp only [hb2, Bool.false_eq_true, if_false]
    rw [length_filter_append_record, hbeq]
    simpa using entityConsistent_register c0.total_records c0.unique_speakers
      (l.filter fun item => item.script_id == c0.script_id).length
      (l.any fun item => item.script_id == sid) hhad (hS c0 hc0)

theorem promptConsistency_delete (l : List MyRecordItem) (ps : List PromptItem)
    (rid : String) (target : MyRecordItem)
    (hfind : (l.find? fun item => item.record_id == rid) = some target)
    (hP : ∀ p ∈ ps, entityConsistent p.total_records p.unique_speakers
      (l.filter fun item => item.prompt_id == p.prompt_id).length) :
    ∀ p ∈ applyLocalPromptStatsDelta ps target.prompt_id (-1)
        (if l.any (fun item =>
            item.record_id != rid && item.prompt_id == target.prompt_id)
          then 0 else -1),
      entityConsistent p.total_records p.unique_speakers
        ((l.filter fun item => item.record_id != rid).filter
          fun item => item.prompt_id == p.prompt_id).length := by
  intro p hp
  rcases List.mem_map.1 hp with ⟨p0, hp0, rfl⟩
  by_cases hb : (p0.prompt_id != target.prompt_id) = true
  · simp only [hb, if_true]
    exact entityConsistent_shrink _ _ _ _ (length_filter_filter_le l _ _)
      (hP p0 hp0)
  · have hb2 : (p0.prompt_id != target.prompt_id) = false :=
      eq_false_of_ne_true hb
    have heq : p0.prompt_id = target.prompt_id := by simpa using hb2
    have hmem : target ∈ l := List.mem_of_find?_eq_some hfind
    have hbid : (target.record_id == rid) = true := by
      simpa using List.find?_some hfind
    have hrx : (target.record_id != rid) = false := by simp [bne, hbid]
    have hqx : (target.prompt_id == p0.prompt_id) = true := by
      rw [heq]
      exact beq_self_eq_true _
    have hlt := length_filter_filter_lt l
      (fun item => item.prompt_id == p0.prompt_id)
      (fun item => item.record_id != rid) target hmem hqx hrx
    have hho : (l.any fun item =>
        item.record_id != rid && item.prompt_id == target.prompt_id) = true ↔
        ((l.filter fun item => item.record_id != rid).filter
          fun item => item.prompt_id == p0.prompt_id).length ≠ 0 := by
      rw [heq]
      exact any_rq_iff_length_ne_zero l _ _
    simp only [hb2, Bool.false_eq_true, if_false]
    exact entityConsistent_delete p0.total_records p0.unique_speakers _ _ hlt _
      hho (hP p0 hp0)

theorem scriptConsistency_delete (l : List MyRecordItem) (cs : List ScriptItem)
    (rid : String) (target : MyRecordItem)
    (hfind : (l.find? fun item => item.record_id == rid) = some target)
    (hS : ∀ c ∈ cs, entityConsistent c.total_records c.unique_speakers
      (l.filter fun item => item.script_id == c.script_id).length) :
    ∀ c ∈ applyLocalScriptStatsDelta cs target.script_id (-1)
        (if l.any (fun item =>
            item.record_id != rid && item.script_id == target.script_id)
          then 0 else -1),
      entityConsistent c.total_records c.unique_speakers
        ((l.filter fun item => item.record_id != rid).filter
          fun item => item.script_id == c.script_id).length := by
  intro c hc
  rcases List.mem_map.1 hc with ⟨c0, hc0, rfl⟩
  by_cases hb : (c0.script_id != target.script_id) = true
  · simp only [hb, if_true]
    exact entityConsistent_shrink _ _ _ _ (length_filter_filter_le l _ _)
      (hS c0 hc0)
  · have hb2 : (c0.script_id != target.script_id) = false :=
      eq_false_of_ne_true hb
    have heq : c0.script_id = target.script_id := by simpa using hb2
    have hmem : target ∈ l := List.mem_of_find?_eq_some hfind
    have hbid : (target.record_id == rid) = true := by
      simpa using List.find?_some hfind
    have hrx : (target.record_id != rid) = false := by simp [bne, hbid]
    have hqx : (target.script_id == c0.script_id) = true := by
      rw [heq]
      exact beq_self_eq_true _
    have hlt := length_filter_filter_lt l
      (fun item => item.script_id == c0.script_id)
      (fun item => item.record_id != rid) target hmem hqx hrx
    have hho : (l.any fun item =>
        item.record_id != rid && item.script_id == target.script_id) = true ↔
        ((l.filter fun item => item.record_id != rid).filter
          fun item => item.script_id == c0.script_id).length ≠ 0 := by
      rw [heq]
      exact any_rq_iff_length_ne_zero l _ _
    simp only [hb2, Bool.false_eq_true, if_false]
    exact entityConsistent_delete c0.total_records c0.unique_speakers _ _ hlt _
      hho (hS c0 hc0)

theorem statsConsistent_applyOp (s : ClientState) (op : ClientOp)
    (h : statsConsistent s) : statsConsistent (applyOp s op) := by
  obtain ⟨hP, hS⟩ := h
  cases op with
  | registerOk draft response =>
      show statsConsistent (registerStep s draft response)
      cases hr : response.already_registered with
      | true =>
          rw [registerStep_already s draft response hr]
          exact ⟨hP, hS⟩
      | false =>
          have hrecs := registerStep_new_records s draft response hr
          constructor
          · intro p hp
            rw [registerStep_new_prompts s draft response hr] at hp
            unfold ownPromptRecords
            rw [hrecs]
            exact promptConsistency_register s.myRecordsItems s.availablePrompts
              draft.promptId (newRecordFromDraft draft) rfl hP p hp
          · intro c hc
            rw [registerStep_new_scripts s draft response hr] at hc
            unfold ownScriptRecords
            rw [hrecs]
            exact scriptConsistency_register s.myRecordsItems s.availableScripts
              draft.scriptId (newRecordFromDraft draft) rfl hS c hc
  | registerErr draft msg =>
      show statsConsistent (runRegisterForDraft s draft (Except.error msg))
      rw [registerErr_state]
      exact ⟨hP, hS⟩
  | deleteRec recordId result =>
      show statsConsistent (deleteStep s recordId result)
      cases result with
      | error msg =>
          rw [deleteStep_err_state]
          exact ⟨hP, hS⟩
      | ok body =>
          have hrecs := deleteStep_ok_records s recordId body
          cases hf : s.myRecordsItems.find?
              (fun item => item.record_id == recordId) with
          | none =>
              obtain ⟨h1, h2⟩ := deleteStep_ok_prompts_notfound s recordId body hf
              constructor
              · intro p hp
                rw [h1] at hp
                unfold ownPromptRecords
                rw [hrecs]
                exact entityConsistent_shrink _ _ _ _
                  (length_filter_filter_le s.myRecordsItems _ _) (hP p hp)
              · intro c hc
                rw [h2] at hc
                unfold ownScriptRecords
                rw [hrecs]
                exact entityConsistent_shrink _ _ _ _
                  (length_filter_filter_le s.myRecordsItems _ _) (hS c hc)
          | some target =>
              constructor
              · intro p hp
                rw [deleteStep_ok_prompts_found s recordId body target hf] at hp
                unfold ownPromptRecords
                rw [hrecs]
                exact promptConsistency_delete s.myRecordsItems
                  s.availablePrompts recordId target hf hP p hp
              · intro c hc
                rw [deleteStep_ok_scripts_found s recordId body target hf] at hc
                unfold ownScriptRecords
                rw [hrecs]
                exact scriptConsistency_delete s.myRecordsItems
                  s.availableScripts recordId target hf hS c hc

def sampleRecord1 : MyRecordItem :=
  { record_id := "r1"
    status := "uploaded"
    script_id := "s1"
    prompt_id := "p1"
    prompt_text := none
    raw_path := "raw/u1/r1.webm"
    mime_type := some "audio/webm"
    size_bytes := some 1000
    duration_ms := some 1200
    created_at := none }

def deleteState : ClientState :=
  { myRecordsItems := [sampleRecord1]
    availablePrompts := [samplePrompt]
    availableScripts := [sampleScript]
    uploadCompletedForCurrentRecording := false
    registerStatus := ""
    myRecordsStatus := "" }

/-- Claim C2: a successful deletion decreases the prompt's and the script's
`total_records` by exactly 1, and decides the `unique_speakers` change by a
live re-derivation over the remaining records: if another record with the
same prompt (resp. script) id remains in `myRecordsItems`, `unique_speakers`
is untouched, and if none remains it decreases by exactly 1. -/
theorem delete_record_stats (s : ClientState) (recordId : String)
    (body : DeleteMyRecordResponse) (target : MyRecordItem)
    (hfind : (s.myRecordsItems.find? fun item => item.record_id == recordId) =
      some target)
    (i : Nat) (p : PromptItem) (hp : s.availablePrompts[i]? = some p)
    (hpid : p.prompt_id = target.prompt_id) (hpt : 1 ≤ p.total_records)
    (hpu0 : 0 ≤ p.unique_speakers)
    (hpu : (s.myRecordsItems.any fun item =>
        item.record_id != recordId && item.prompt_id == target.prompt_id) =
          false → 1 ≤ p.unique_speakers)
    (j : Nat) (c : ScriptItem) (hc : s.availableScripts[j]? = some c)
    (hcid : c.script_id = target.script_id) (hct : 1 ≤ c.total_records)
    (hcu0 : 0 ≤ c.unique_speakers)
    (hcu : (s.myRecordsItems.any fun item =>
        item.record_id != recordId && item.script_id == target.script_id) =
          false → 1 ≤ c.unique_speakers) :
    (handleDeleteMyRecord s recordId (Except.ok body)).availablePrompts[i]? =
        some { p with
                total_records := p.total_records + -1
                unique_speakers := p.unique_speakers +
                  if s.myRecordsItems.any (fun item =>
                      item.record_id != recordId &&
                        item.prompt_id == target.prompt_id) then 0
                  else -1 } ∧
      (handleDeleteMyRecord s recordId (Except.ok body)).availableScripts[j]? =
        some { c with
                total_records := c.total_records + -1
                unique_speakers := c.unique_speakers +
                  if s.myRecordsItems.any (fun item =>
                      item.record_id != recordId &&
                        item.script_id == target.script_id) then 0
                  else -1 } := by
  have hprompts :
      (handleDeleteMyRecord s recordId (Except.ok body)).availablePrompts =
        applyLocalPromptStatsDelta s.availablePrompts target.prompt_id (-1)
          (if s.myRecordsItems.any (fun item =>
              item.record_id != recordId && item.prompt_id == target.prompt_id)
            then 0 else -1) := by
    simp [handleDeleteMyRecord, hfind]
  have hscripts :
      (handleDeleteMyRecord s recordId (Except.ok body)).availableScripts =
        applyLocalScriptStatsDelta s.availableScripts target.script_id (-1)
          (if s.myRecordsItems.any (fun item =>
              item.record_id != recordId && item.script_id == target.script_id)
            then 0 else -1) := by
    simp [handleDeleteMyRecord, hfind]
  constructor
  · rw [hprompts]
    refine applyLocalPromptStatsDelta_getElem _ _ _ _ _ _ hp hpid (by omega) ?_
    by_cases hb : (s.myRecordsItems.any fun item =>
        item.record_id != recordId && item.prompt_id == target.prompt_id) = true
    · simp only [hb, if_true]
      omega
    · have hb2 := eq_false_of_ne_true hb
      have h1 := hpu hb2
      simp only [hb2, Bool.false_eq_true, if_false]
      omega
  · rw [hscripts]
    refine applyLocalScriptStatsDelta_getElem _ _ _ _ _ _ hc hcid (by omega) ?_
    by_cases hb : (s.myRecordsItems.any fun item =>
        item.record_id != recordId && item.script_id == target.script_id) = true
    · simp only [hb, if_true]
      omega
    · have hb2 := eq_false_of_ne_true hb
      have h1 := hcu hb2
      simp only [hb2, Bool.false_eq_true, if_false]
      omega

/-- Witness for C2: deleting the contributor's only record for prompt p1 and
script s1 takes both entities from (3, 2) to (2, 1). -/
theorem delete_record_stats_witness :
    (handleDeleteMyRecord deleteState "r1"
          (Except.ok sampleDeleteBody)).availablePrompts[0]? =
        some { samplePrompt with total_records := 2, unique_speakers := 1 } ∧
      (handleDeleteMyRecord deleteState "r1"
            (Except.ok sampleDeleteBody)).availableScripts[0]? =
        some { sampleScript with total_records := 2, unique_speakers := 1 } := by
  have h := delete_record_stats deleteState "r1" sampleDeleteBody sampleRecord1
    (by decide) 0 samplePrompt (by decide) (by decide) (by decide) (by decide)
    (fun _ => by decide) 0 sampleScript (by decide) (by decide) (by decide)
    (by decide) (fun _ => by decide)
  constructor
  · rw [h.1]
    decide
  · rw [h.2]
    decide

theorem countersNonneg_applyOps (s : ClientState) (ops : List ClientOp) :
    countersNonneg s → countersNonneg (applyOps s ops) := by
  induction ops generalizing s with
  | nil => exact fun h => h
  | cons op rest ih =>
      exact fun h => ih (applyOp s op) (countersNonneg_applyOp s op h)

theorem statsConsistent_applyOps (s : ClientState) (ops : List ClientOp) :
    statsConsistent s → statsConsistent (applyOps s ops) := by
  induction ops generalizing s with
  | nil => exact fun h => h
  | cons op rest ih =>
      exact fun h => ih (applyOp s op) (statsConsistent_applyOp s op h)

def clampPrompt : PromptItem :=
  { prompt_id := "p1"
    text := "a"
    order := 1
    is_active := true
    total_records := 0
    unique_speakers := 0 }

def clampScript : ScriptItem :=
  { script_id := "s1"
    title := "t"
    description := ""
    order := 1
    is_active := true
    prompt_count := 1
    total_records := 0
    unique_speakers := 0 }

def clampState : ClientState :=
  { myRecordsItems := [sampleRecord1]
    availablePrompts := [clampPrompt]
    availableScripts := [clampScript]
    uploadCompletedForCurrentRecording := false
    registerStatus := ""
    myRecordsStatus := "" }

/-- Claim C4: along every sequence of register and delete operations from a
state whose counters are all nonnegative, every `total_records` and
`unique_speakers` of every prompt and script stays nonnegative (each
decrement is clamped at 0 by `Math.max`), and the clamping never fails the
caller's request: a successful deletion always reports the non-failure status
regardless of the counter values. -/
theorem counters_nonneg_reachable (s : ClientState) (ops : List ClientOp)
    (h : countersNonneg s) :
    countersNonneg (applyOps s ops) ∧
      ∀ recordId body,
        (handleDeleteMyRecord s recordId (Except.ok body)).myRecordsStatus =
          "My records: deleting ..." := by
  constructor
  · exact countersNonneg_applyOps s ops h
  · intro recordId body
    cases hf : s.myRecordsItems.find?
        (fun item => item.record_id == recordId) <;>
      simp [handleDeleteMyRecord, hf]

/-- Witness for C4: deleting a record while the displayed counters are
already 0 clamps at 0 and still succeeds. -/
theorem counters_nonneg_reachable_witness :
    countersNonneg clampState ∧
      countersNonneg (applyOps clampState
        [ClientOp.deleteRec "r1" (Except.ok sampleDeleteBody)]) ∧
      (handleDeleteMyRecord clampState "r1"
          (Except.ok sampleDeleteBody)).myRecordsStatus =
        "My records: deleting ..." :=
  And.intro (by decide)
    (And.intro
      (counters_nonneg_reachable clampState
          [ClientOp.deleteRec "r1" (Except.ok sampleDeleteBody)] (by decide)).1
      ((counters_nonneg_reachable clampState
          [ClientOp.deleteRec "r1" (Except.ok sampleDeleteBody)] (by decide)).2
        "r1" sampleDeleteBody))

def c5RecordA : MyRecordItem :=
  { record_id := "a"
    status := "uploaded"
    script_id := "s1"
    prompt_id := "p1"
    prompt_text := none
    raw_path := ""
    mime_type := none
    size_bytes := none
    duration_ms := none
    created_at := none }

def c5RecordB : MyRecordItem :=
  { record_id := "b"
    status := "uploaded"
    script_id := "s1"
    prompt_id := "p1"
    prompt_text := none
    raw_path := ""
    mime_type := none
    size_bytes := none
    duration_ms := none
    created_at := none }

def c5Prompt : PromptItem :=
  { prompt_id := "p1"
    text := "a"
    order := 1
    is_active := true
    total_records := 1
    unique_speakers := 1 }

def c5Script : ScriptItem :=
  { script_id := "s1"
    title := "t"
    description := ""
    order := 1
    is_active := true
    prompt_count := 1
    total_records := 1
    unique_speakers := 1 }

def c5State : ClientState :=
  { myRecordsItems := [c5RecordA, c5RecordB]
    availablePrompts := [c5Prompt]
    availableScripts := [c5Script]
    uploadCompletedForCurrentRecording := false
    registerStatus := ""
    myRecordsStatus := "" }

/-- Counterexample to claim C5 as stated: `unique_speakers ≤ total_records`
alone is not inductive for the client's stats updates. In the state where the
contributor owns two records for prompt p1 while the displayed counters are
(total 1, unique 1) — which satisfies the invariant — deleting one of the two
records applies the delta (-1, 0) (another own record remains), clamps the
total at 0 and leaves unique at 1, violating unique ≤ total. -/
theorem unique_le_total_counterexample :
    uniqueLeTotal c5State ∧
      ¬uniqueLeTotal (applyOps c5State
        [ClientOp.deleteRec "a" (Except.ok sampleDeleteBody)]) := by
  constructor
  · decide
  · decide

/-- Claim C5 (amended): from any state satisfying the strengthened
consistency invariant — each entity's counters agree with the contributor's
own record count for it: with no own records `0 ≤ unique ≤ total`, with
`n ≥ 1` own records `unique ≥ 1` and `unique - 1 ≤ total - n` — every state
reachable by register and delete operations still satisfies the invariant,
and in particular `unique_speakers ≤ total_records` for every prompt and
script. -/
theorem unique_le_total_amended (s : ClientState) (ops : List ClientOp)
    (h : statsConsistent s) :
    statsConsistent (applyOps s ops) ∧ uniqueLeTotal (applyOps s ops) := by
  have hc : statsConsistent (applyOps s ops) := statsConsistent_applyOps s ops h
  refine ⟨hc, ?_, ?_⟩
  · intro p hp
    exact (entityConsistent_le _ _ _ (hc.1 p hp)).2
  · intro c hc2
    exact (entityConsistent_le _ _ _ (hc.2 c hc2)).2

/-- Witness for C5 (amended): a fresh contributor registers one record and
then deletes it; unique ≤ total holds in the final state. -/
theorem unique_le_total_amended_witness :
    statsConsistent sampleState ∧
      uniqueLeTotal (applyOps sampleState
        [ClientOp.registerOk sampleDraft sampleRegisterBodyNew,
          ClientOp.deleteRec "r1" (Except.ok sampleDeleteBody)]) :=
  And.intro (by decide)
    (unique_le_total_amended sampleState
        [ClientOp.registerOk sampleDraft sampleRegisterBodyNew,
          ClientOp.deleteRec "r1" (Except.ok sampleDeleteBody)] (by decide)).2

theorem charListLt_trans : ∀ (as bs cs : List Char),
    charListLt as bs = true → charListLt bs cs = true →
      charListLt as cs = true := by
  intro as
  induction as with
  | nil =>
      intro bs cs hab hbc
      cases cs with
      | nil => cases bs <;> simp [charListLt] at hbc
      | cons c cs2 => simp [charListLt]
  | cons a as2 ih =>
      intro bs cs hab hbc
      cases bs with
      | nil => simp [charListLt] at hab
      | cons b bs2 =>
          cases cs with
          | nil => simp [charListLt] at hbc
          | cons c cs2 =>
              simp only [charListLt, Bool.or_eq_true, Bool.and_eq_true,
                decide_eq_true_eq, beq_iff_eq] at hab hbc ⊢
              rcases hab with h1 | ⟨h1, h2⟩
              · rcases hbc with h3 | ⟨h3, h4⟩
                · exact Or.inl (lt_trans h1 h3)
                · exact Or.inl (h3 ▸ h1)
              · subst h1
                rcases hbc with h3 | ⟨h3, h4⟩
                · exact Or.inl h3
                · subst h3
                  exact Or.inr ⟨rfl, ih _ _ h2 h4⟩

theorem charListLt_trichotomy : ∀ (as bs : List Char),
    charListLt as bs = true ∨ as = bs ∨ charListLt bs as = true := by
  intro as
  induction as with
  | nil =>
      intro bs
      cases bs with
      | nil => exact Or.inr (Or.inl rfl)
      | cons b bs2 => exact Or.inl (by simp [charListLt])
  | cons a as2 ih =>
      intro bs
      cases bs with
      | nil => exact Or.inr (Or.inr (by simp [charListLt]))
      | cons b bs2 =>
          rcases lt_trichotomy a b with h | h | h
          · exact Or.inl (by simp [charListLt, h])
          · subst h
            rcases ih bs2 with h2 | h2 | h2
            · exact Or.inl (by simp [charListLt, h2])
            · exact Or.inr (Or.inl (by rw [h2]))
            · exact Or.inr (Or.inr (by simp [charListLt, h2]))
          · exact Or.inr (Or.inr (by simp [charListLt, h]))

theorem stringLt_trans (a b c : String) (h1 : stringLt a b = true)
    (h2 : stringLt b c = true) : stringLt a c = true :=
  charListLt_trans _ _ _ h1 h2

theorem stringLt_trichotomy (a b : String) :
    stringLt a b = true ∨ a = b ∨ stringLt b a = true := by
  rcases charListLt_trichotomy a.toList b.toList with h | h | h
  · exact Or.inl h
  · refine Or.inr (Or.inl ?_)
    cases a
    cases b
    exact congrArg String.mk (by simpa [String.toList] using h)
  · exact Or.inr (Or.inr h)

theorem stringLe_trans (a b c : String) (h1 : stringLe a b = true)
    (h2 : stringLe b c = true) : stringLe a c = true := by
  simp only [stringLe, Bool.or_eq_true, beq_iff_eq] at *
  rcases h1 with h1 | h1
  · rcases h2 with h2 | h2
    · exact Or.inl (stringLt_trans _ _ _ h1 h2)
    · exact Or.inl (h2 ▸ h1)
  · subst h1
    exact h2

theorem stringLe_total (a b : String) :
    stringLe a b = true ∨ stringLe b a = true := by
  rcases stringLt_trichotomy a b with h | h | h
  · exact Or.inl (by simp [stringLe, h])
  · exact Or.inl (by simp [stringLe, h])
  · exact Or.inr (by simp [stringLe, h])

theorem leaderboardLE_iff (a b : ContributorRow) :
    leaderboardLE a b = true ↔
      (b.contribution_count < a.contribution_count ∨
        (a.contribution_count = b.contribution_count ∧
          (stringLt (leaderboardName a) (leaderboardName b) = true ∨
            (leaderboardName a = leaderboardName b ∧
              stringLe a.uid b.uid = true)))) := by
  simp [leaderboardLE, Bool.or_eq_true, Bool.and_eq_true, decide_eq_true_eq,
    beq_iff_eq]

theorem leaderboardLE_trans (a b c : ContributorRow)
    (hab : leaderboardLE a b) (hbc : leaderboardLE b c) :
    leaderboardLE a c := by
  rw [leaderboardLE_iff] at *
  rcases hab with h1 | ⟨h1, h2⟩
  · rcases hbc with h3 | ⟨h3, h4⟩
    · exact Or.inl (lt_trans h3 h1)
    · exact Or.inl (h3 ▸ h1)
  · rcases hbc with h3 | ⟨h3, h4⟩
    · exact Or.inl (h1 ▸ h3)
    · refine Or.inr ⟨h1.trans h3, ?_⟩
      rcases h2 with h2 | ⟨h2, h2b⟩
      · rcases h4 with h4 | ⟨h4, h4b⟩
        · exact Or.inl (stringLt_trans _ _ _ h2 h4)
        · exact Or.inl (h4 ▸ h2)
      · rcases h4 with h4 | ⟨h4, h4b⟩
        · exact Or.inl (h2 ▸ h4)
        · exact Or.inr ⟨h2.trans h4, stringLe_trans _ _ _ h2b h4b⟩

theorem leaderboardLE_total (a b : ContributorRow) :
    leaderboardLE a b || leaderboardLE b a := by
  simp only [Bool.or_eq_true, leaderboardLE_iff]
  rcases lt_trichotomy a.contribution_count b.contribution_count with h | h | h
  · exact Or.inr (Or.inl h)
  · rcases stringLt_trichotomy (leaderboardName a) (leaderboardName b) with
      h2 | h2 | h2
    · exact Or.inl (Or.inr ⟨h, Or.inl h2⟩)
    · rcases stringLe_total a.uid b.uid with h3 | h3
      · exact Or.inl (Or.inr ⟨h, Or.inr ⟨h2, h3⟩⟩)
      · exact Or.inr (Or.inr ⟨h.symm, Or.inr ⟨h2.symm, h3⟩⟩)
    · exact Or.inr (Or.inr ⟨h.symm, Or.inl h2⟩)
  · exact Or.inl (Or.inl h)

instance : IsTrans ContributorRow leaderboardOrder :=
  ⟨leaderboardLE_trans⟩

instance : IsTotal ContributorRow leaderboardOrder :=
  ⟨fun a b => (Bool.or_eq_true _ _).mp (leaderboardLE_total a b)⟩

/-- Claim C8: the leaderboard listing is deterministically ordered by the
three levels — contribution count descending, then display name ascending
(falling back to the contributor id when no display name is set), then
contributor id ascending — contains only visible rows with a positive count,
and its limit is bounded to 1..50, while the client requests limit 10 by
default. -/
theorem leaderboard_spec (rows : List ContributorRow) (limit : Nat) :
    List.Pairwise
        (fun a b =>
          b.contribution_count < a.contribution_count ∨
            (a.contribution_count = b.contribution_count ∧
              (stringLt (leaderboardName a) (leaderboardName b) = true ∨
                (leaderboardName a = leaderboardName b ∧
                  stringLe a.uid b.uid = true))))
        (topContributors rows limit) ∧
      (∀ r ∈ topContributors rows limit,
        0 < r.contribution_count ∧ r.is_hidden = false) ∧
      (topContributors rows limit).length ≤ boundedLimit limit ∧
      1 ≤ boundedLimit limit ∧ boundedLimit limit ≤ 50 ∧
      fetchLeaderboardQuery = "limit=10" := by
  refine ⟨?_, ?_, ?_, ?_, ?_, ?_⟩
  · have hsorted : List.Pairwise leaderboardOrder
        ((rows.filter fun r =>
          0 < r.contribution_count ∧ r.is_hidden = false).insertionSort
            leaderboardOrder) :=
      List.sorted_insertionSort leaderboardOrder
        (rows.filter fun r => 0 < r.contribution_count ∧ r.is_hidden = false)
    have hpair := List.Pairwise.sublist
      (List.take_sublist (boundedLimit limit)
        ((rows.filter fun r =>
          0 < r.contribution_count ∧ r.is_hidden = false).insertionSort
            leaderboardOrder))
      hsorted
    exact hpair.imp fun h => (leaderboardLE_iff _ _).1 h
  · intro r hr
    have hr2 : r ∈ ((rows.filter fun r =>
        0 < r.contribution_count ∧ r.is_hidden = false).insertionSort
          leaderboardOrder) :=
      List.Sublist.subset (List.take_sublist _ _) hr
    rw [List.mem_insertionSort] at hr2
    exact of_decide_eq_true (List.mem_filter.1 hr2).2
  · exact List.length_take_le _ _
  · unfold boundedLimit
    omega
  · unfold boundedLimit
    omega
  · rfl

def wRowBob : ContributorRow :=
  { uid := "u3", display_name := "bob", contribution_count := 7,
    is_hidden := false }

def wRows : List ContributorRow :=
  [{ uid := "u2", display_name := "ann", contribution_count := 5,
      is_hidden := false },
    { uid := "u1", display_name := "", contribution_count := 5,
      is_hidden := false },
    wRowBob,
    { uid := "u4", display_name := "zed", contribution_count := 0,
      is_hidden := false },
    { uid := "u5", display_name := "eve", contribution_count := 9,
      is_hidden := true }]

/-- Witness for C8 at a concrete row list: the top row is the highest count
and every listed row is visible with a positive count. -/
theorem leaderboard_spec_witness :
    wRowBob ∈ topContributors wRows 10 ∧
      0 < wRowBob.contribution_count ∧ wRowBob.is_hidden = false :=
  have hmem : wRowBob ∈ topContributors wRows 10 := by decide
  And.intro hmem ((leaderboard_spec wRows 10).2.1 wRowBob hmem)

end MoraCollect
